import Mathlib

/-!
Shallow embedding of the HackTheCloud25 CTF manager core
(`lib/challenge.py`, `lib/terraform_manager.py`, `ctf-manager.py`).

External effects (subprocess invocations, file writes) are tracked as an
explicit effect trace returned alongside each operation's result.  Python
exceptions raised by the collaborators consulted during cross-challenge
dependency resolution are modelled with `Except`.
-/

namespace HTC

/-- `ChallengeStatus` enum from `lib/challenge.py` (lines 12-19). -/
inductive ChallengeStatus
  | notDeployed
  | deploying
  | deployed
  | destroying
  | failed
  | unknown
deriving DecidableEq, Repr

/-- A Python scalar value, as stored in a challenge's `variables` mapping or
returned among terraform outputs. -/
inductive PyValue
  | str (s : String)
  | bool (b : Bool)
  | int (n : Int)
deriving DecidableEq, Repr

/-- Python `str(...)` on a scalar value. -/
def pyStr : PyValue → String
  | PyValue.str s => s
  | PyValue.bool b => if b then "True" else "False"
  | PyValue.int n => toString n

/-- Python list-prefix test on character lists (`str.startswith` core). -/
def listPrefix : List Char → List Char → Bool
  | [], _ => true
  | _ :: _, [] => false
  | a :: as, b :: bs => decide (a = b) && listPrefix as bs

/-- Python `haystack.__contains__(needle)` core on character lists. -/
def listInfix (needle : List Char) : List Char → Bool
  | [] => needle.isEmpty
  | c :: rest => listPrefix needle (c :: rest) || listInfix needle rest

/-- Python `s.startswith(pre)`. -/
def pyStartsWith (s pre : String) : Bool := listPrefix pre.data s.data

/-- Python `s.endswith(suf)`. -/
def pyEndsWith (s suf : String) : Bool := listPrefix suf.data.reverse s.data.reverse

/-- Python `needle in hay` substring test. -/
def pyIn (needle hay : String) : Bool := listInfix needle.data hay.data

/-- Python slice `s[2:-1]`, used to strip a `${...}` wrapper. -/
def pySliceInner (s : String) : String := String.mk ((s.data.drop 2).dropLast)

/-- Python `'.' in s`. -/
def strContainsDot (s : String) : Bool := s.data.contains '.'

/-- Python `s.lower()`. -/
def pyLower (s : String) : String := String.mk (s.data.map Char.toLower)

/-- Python `s.strip()` (strip whitespace from both ends). -/
def pyStrip (s : String) : String :=
  String.mk (((s.data.dropWhile Char.isWhitespace).reverse.dropWhile Char.isWhitespace).reverse)

/-- Python `dependency.split('.', 1)` on the character list: split at the
first dot, `none` when the string holds no dot (list form). -/
def splitFirstDotList : List Char → Option (List Char × List Char)
  | [] => none
  | c :: rest =>
    if c = '.' then some ([], rest)
    else
      match splitFirstDotList rest with
      | some (a, b) => some (c :: a, b)
      | none => none

/-- Python `dependency.split('.', 1)`: `some (before, after)` at the first
dot, `none` when the string holds no dot. -/
def splitFirstDot (s : String) : Option (String × String) :=
  match splitFirstDotList s.data with
  | some (a, b) => some (String.mk a, String.mk b)
  | none => none

/-- Python f-string `f"${{{dependency}}}"`: rebuild the `${...}` token. -/
def wrapToken (t : String) : String := "$\x7b" ++ t ++ "\x7d"

/-! ## State prober (`Challenge.get_status_from_terraform_state`) -/

/-- Outcome of one `subprocess.run` call: normal completion with exit code
and captured streams, `subprocess.TimeoutExpired`, `FileNotFoundError`
(missing binary), or any other raised exception. -/
inductive RunOutcome
  | completed (returncode : Int) (stdout stderr : String)
  | timedOut
  | toolNotFound
  | raised (msg : String)
deriving DecidableEq, Repr

/-- The on-disk and subprocess facts one challenge's operations observe:
whether `full_directory_path` is set, whether `<dir>/.terraform` exists,
the outcome of `terraform state list`, whether `<dir>/terraform.tfvars`
exists beforehand, whether `create_terraform_variables_file` succeeds, and
the success of each long-running terraform command. -/
structure ChallengeWorld where
  dirSet : Bool
  terraformDirExists : Bool
  stateListOutcome : RunOutcome
  tfvarsExists : Bool
  createVarsOk : Bool
  planRunOk : Bool
  applyRunOk : Bool
  destroyRunOk : Bool
deriving DecidableEq, Repr

/-- One observable side effect of an operation: a subprocess invocation
(with the timeout in seconds passed to `subprocess.run`), or a file write
into the challenge working directory (identified by file name). -/
inductive Effect
  | runCmd (command : List String) (timeoutSecs : Nat)
  | writeFile (fileName : String)
deriving DecidableEq, Repr

/-- Interpretation of the `terraform state list` outcome inside
`Challenge.get_status_from_terraform_state` (lines 146-168). -/
def interpretStateList (o : RunOutcome) : ChallengeStatus :=
  match o with
  | RunOutcome.completed rc out err =>
    if rc = 0 then
      if pyStrip out ≠ "" then ChallengeStatus.deployed
      else ChallengeStatus.notDeployed
    else
      if pyIn "No state file was found" err = true ∨ pyIn "Failed to load state" err = true then
        ChallengeStatus.notDeployed
      else ChallengeStatus.unknown
  | RunOutcome.timedOut => ChallengeStatus.unknown
  | RunOutcome.toolNotFound => ChallengeStatus.unknown
  | RunOutcome.raised _ => ChallengeStatus.unknown

/-- `Challenge.get_status_from_terraform_state` (lines 119-168), paired with
its subprocess trace.  With no directory path the status is `unknown`; with
no `.terraform` directory it is `not_deployed` with no subprocess; otherwise
one `terraform state list` call with a 30 second timeout is made and its
outcome interpreted. -/
def get_status_from_terraform_state (w : ChallengeWorld) : ChallengeStatus × List Effect :=
  if w.dirSet = false then (ChallengeStatus.unknown, [])
  else if w.terraformDirExists = false then (ChallengeStatus.notDeployed, [])
  else (interpretStateList w.stateListOutcome, [Effect.runCmd ["terraform", "state", "list"] 30])

/-! ## Variable resolution (`Challenge._resolve_variable_value`,
`Challenge._resolve_challenge_dependency`) -/

/-- The collaborators consulted while resolving a cross-challenge dependency
(`lib/challenge.py` lines 276-315).  Each call may raise a Python exception
(`Except.error`): `config_loader.get_challenge_config` (found or not),
`Challenge.get_status_from_terraform_state` of the dependency challenge, and
`terraform_manager.get_outputs` (success flag and output mapping). -/
structure DepEnv where
  config_exists : String → Except String Bool
  probed_status : String → Except String ChallengeStatus
  get_outputs : String → Except String (Bool × List (String × PyValue))

/-- Body of the `try` block of `Challenge._resolve_challenge_dependency`
(lines 276-315): split the dependency on the first dot, require the target
challenge in configuration, require probed status exactly `deployed`,
require output retrieval success with the output name present, and return
`str(...)` of the output value; every failure returns the rebuilt `${...}`
token.  An `Except.error` is an exception escaping the block. -/
def resolve_challenge_dependency_attempt (env : DepEnv) (dependency : String) :
    Except String String :=
  match splitFirstDot dependency with
  | none => Except.ok (wrapToken dependency)
  | some (challenge_name, output_name) =>
    match env.config_exists challenge_name with
    | Except.error e => Except.error e
    | Except.ok found =>
      if found = false then Except.ok (wrapToken dependency)
      else
        match env.probed_status challenge_name with
        | Except.error e => Except.error e
        | Except.ok st =>
          if st ≠ ChallengeStatus.deployed then Except.ok (wrapToken dependency)
          else
            match env.get_outputs challenge_name with
            | Except.error e => Except.error e
            | Except.ok (success, outputs) =>
              if success = false then Except.ok (wrapToken dependency)
              else
                match outputs.lookup output_name with
                | none => Except.ok (wrapToken dependency)
                | some v => Except.ok (pyStr v)

/-- `Challenge._resolve_challenge_dependency` (lines 266-319): the `try`
body with the `except Exception` handler that returns the rebuilt `${...}`
token on any raised exception. -/
def resolve_challenge_dependency (env : DepEnv) (dependency : String) : String :=
  match resolve_challenge_dependency_attempt env dependency with
  | Except.ok s => s
  | Except.error _ => wrapToken dependency

/-- The fixed `var_mapping` table of `Challenge._resolve_variable_value`
(lines 233-243). -/
def var_mapping : List (String × String) :=
  [("AZURE_SUBSCRIPTION_ID", "subscription_id"),
   ("AZURE_TENANT_ID", "tenant_id"),
   ("AZURE_CLIENT_ID", "client_id"),
   ("AZURE_CLIENT_SECRET", "client_secret"),
   ("AWS_ACCESS_KEY_ID", "access_key_id"),
   ("AWS_SECRET_ACCESS_KEY", "secret_access_key"),
   ("GCP_PROJECT_ID", "project_id"),
   ("GCP_REGION", "region"),
   ("GCP_USER_EMAIL", "user_email")]

/-- The credential tier of `Challenge._resolve_variable_value` (lines
246-251): look `var_name` up in `var_mapping` and, when mapped, look the
mapped key up in `provider_creds`; `none` falls through to the environment
tier. -/
def creds_lookup (var_name : String) (provider_creds : List (String × PyValue)) :
    Option PyValue :=
  match var_mapping.lookup var_name with
  | some cred_key => provider_creds.lookup cred_key
  | none => none

/-- The non-dependency collaborators of `Challenge._resolve_variable_value`:
the dependency-resolution environment and `os.getenv` (which yields `none`
for an unset process environment variable). -/
structure ResolveEnv where
  dep : DepEnv
  os_env : String → Option String

/-- `Challenge._resolve_variable_value` (lines 210-264): non-strings and
strings not wrapped as `${...}` pass through unchanged; a wrapped token with
a dot goes to dependency resolution; otherwise provider credentials via
`var_mapping` take precedence, then a non-empty `os.getenv` value, then the
original string is returned unresolved. -/
def resolve_variable_value (env : ResolveEnv) (value : PyValue)
    (provider_creds : List (String × PyValue)) : PyValue :=
  match value with
  | PyValue.str s =>
    if pyStartsWith s "$\x7b" = true ∧ pyEndsWith s "\x7d" = true then
      let var_name := pySliceInner s
      if strContainsDot var_name = true then
        PyValue.str (resolve_challenge_dependency env.dep var_name)
      else
        match creds_lookup var_name provider_creds with
        | some resolved => resolved
        | none =>
          match env.os_env var_name with
          | some r => if r ≠ "" then PyValue.str r else PyValue.str s
          | none => PyValue.str s
    else value
  | v => v

/-! ## Terraform lifecycle operations (`lib/terraform_manager.py`) -/

/-- `TerraformManager.apply` (lines 185-234) as a result plus effect trace.
With no directory path it fails with no effect.  With `var_file`,
`create_terraform_variables_file` is attempted first (an exception is
caught with a warning, leaving no write); the apply command then carries
`-auto-approve` and `-var-file` (the path abbreviated to its file name)
as the source builds them, with the 2400 second timeout for
`challenge-04-aws-only` and 1200 seconds otherwise (line 225). -/
def terraform_apply (w : ChallengeWorld) (name : String) (auto_approve var_file : Bool) :
    Bool × List Effect :=
  if w.dirSet = false then (false, [])
  else
    let write_effects := if var_file = true ∧ w.createVarsOk = true then
        [Effect.writeFile "terraform.tfvars"] else []
    let tfvars_now := if var_file = true then (w.createVarsOk || w.tfvarsExists) else w.tfvarsExists
    let command := ["terraform", "apply"]
      ++ (if auto_approve = true then ["-auto-approve"] else [])
      ++ (if var_file = true ∧ tfvars_now = true then ["-var-file", "terraform.tfvars"] else [])
    (w.applyRunOk,
     write_effects ++ [Effect.runCmd command (if name = "challenge-04-aws-only" then 2400 else 1200)])

/-- `TerraformManager.plan` (lines 139-183): like apply but with the default
600 second timeout of `_run_terraform_command` and no approval flag. -/
def terraform_plan (w : ChallengeWorld) (var_file : Bool) : Bool × List Effect :=
  if w.dirSet = false then (false, [])
  else
    let write_effects := if var_file = true ∧ w.createVarsOk = true then
        [Effect.writeFile "terraform.tfvars"] else []
    let tfvars_now := if var_file = true then (w.createVarsOk || w.tfvarsExists) else w.tfvarsExists
    let command := ["terraform", "plan"]
      ++ (if var_file = true ∧ tfvars_now = true then ["-var-file", "terraform.tfvars"] else [])
    (w.planRunOk, write_effects ++ [Effect.runCmd command 600])

/-- `TerraformManager.destroy` (lines 236-278): no variables-file
regeneration; the destroy command uses whatever `terraform.tfvars` is
already on disk, with the 2400 second timeout for `challenge-04-aws-only`
and 1200 seconds otherwise (line 269). -/
def terraform_destroy (w : ChallengeWorld) (name : String) (auto_approve var_file : Bool) :
    Bool × List Effect :=
  if w.dirSet = false then (false, [])
  else
    let command := ["terraform", "destroy"]
      ++ (if auto_approve = true then ["-auto-approve"] else [])
      ++ (if var_file = true ∧ w.tfvarsExists = true then ["-var-file", "terraform.tfvars"] else [])
    (w.destroyRunOk,
     [Effect.runCmd command (if name = "challenge-04-aws-only" then 2400 else 1200)])

/-! ## CLI orchestration (`ctf-manager.py`) -/

/-- The facts `CTFManager` observes: the configured challenge names in
order, whether `get_challenge` finds a name, each challenge's world, and the
operator's typed confirmation response. -/
structure MgrEnv where
  challenges : List String
  config_exists : String → Bool
  world : String → ChallengeWorld
  response : String

/-- `CTFManager.destroy_challenge` (lines 193-214): unknown name fails; a
probed `not_deployed` status short-circuits to success before any destroy
subprocess; otherwise `TerraformManager.destroy` runs and its success is
returned. -/
def destroy_challenge (env : MgrEnv) (name : String) (auto_approve : Bool) :
    Bool × List Effect :=
  if env.config_exists name = false then (false, [])
  else
    let probe := get_status_from_terraform_state (env.world name)
    if probe.1 = ChallengeStatus.notDeployed then (true, probe.2)
    else
      let d := terraform_destroy (env.world name) name auto_approve true
      (d.1, probe.2 ++ d.2)

/-- The `deployed_challenges` filter of `CTFManager.destroy_all_challenges`
(lines 219-222). -/
def deployed_challenges (env : MgrEnv) : List String :=
  env.challenges.filter
    (fun c => decide ((get_status_from_terraform_state (env.world c)).1 = ChallengeStatus.deployed))

/-- `CTFManager.destroy_all_challenges` (lines 216-246): probe every
challenge, return success when none is deployed, otherwise require the
confirmation response to lower-case to `yes` unless auto-approve is set,
then destroy each deployed challenge (always with auto-approve) and succeed
only when every destroy succeeded. -/
def destroy_all_challenges (env : MgrEnv) (auto_approve : Bool) : Bool × List Effect :=
  let probe_effects :=
    (env.challenges.map (fun c => (get_status_from_terraform_state (env.world c)).2)).flatten
  let deployed := deployed_challenges env
  if deployed = [] then (true, probe_effects)
  else if auto_approve = false ∧ pyLower env.response ≠ "yes" then (false, probe_effects)
  else
    let results := deployed.map (fun c => destroy_challenge env c true)
    let success_count := (results.filter (fun r => r.1 = true)).length
    (decide (success_count = deployed.length),
     probe_effects ++ (results.map (fun r => r.2)).flatten)

/-- Recognize a `terraform destroy` subprocess invocation in a trace. -/
def isDestroyCommand : Effect → Bool
  | Effect.runCmd ("terraform" :: "destroy" :: _) _ => true
  | _ => false

/-- Number of destroy subprocess invocations in an effect trace. -/
def destroyCount (trace : List Effect) : Nat := (trace.filter isDestroyCommand).length

/-! ## Helper lemmas -/

lemma data_append (a b : String) : (a ++ b).data = a.data ++ b.data := rfl

lemma wrapToken_data (t : String) : (wrapToken t).data = '$' :: '{' :: (t.data ++ ['}']) := by
  simp [wrapToken, data_append]

lemma pyStartsWith_wrap (t : String) : pyStartsWith (wrapToken t) "$\x7b" = true := by
  have hpre : ("$\x7b" : String).data = ['$', '{'] := rfl
  simp [pyStartsWith, wrapToken_data, hpre, listPrefix]

lemma pyEndsWith_wrap (t : String) : pyEndsWith (wrapToken t) "\x7d" = true := by
  have hsuf : ("\x7d" : String).data = ['}'] := rfl
  simp [pyEndsWith, wrapToken_data, hsuf, listPrefix, List.reverse_append]

lemma pySliceInner_wrap (t : String) : pySliceInner (wrapToken t) = t := by
  simp [pySliceInner, wrapToken_data, List.dropLast_concat]

lemma interpretStateList_cases (o : RunOutcome) :
    interpretStateList o = ChallengeStatus.deployed
  ∨ interpretStateList o = ChallengeStatus.notDeployed
  ∨ interpretStateList o = ChallengeStatus.unknown := by
  cases o
  case completed rc out err =>
    simp only [interpretStateList]
    split_ifs <;> simp
  all_goals simp [interpretStateList]

lemma probe_status_cases (w : ChallengeWorld) :
    (get_status_from_terraform_state w).1 = ChallengeStatus.deployed
  ∨ (get_status_from_terraform_state w).1 = ChallengeStatus.notDeployed
  ∨ (get_status_from_terraform_state w).1 = ChallengeStatus.unknown := by
  unfold get_status_from_terraform_state
  split
  · simp
  · split
    · simp
    · simpa using interpretStateList_cases w.stateListOutcome

lemma destroyCount_append (a b : List Effect) :
    destroyCount (a ++ b) = destroyCount a + destroyCount b := by
  simp [destroyCount, List.filter_append]

lemma destroyCount_probe (w : ChallengeWorld) :
    destroyCount (get_status_from_terraform_state w).2 = 0 := by
  unfold get_status_from_terraform_state
  split
  · rfl
  · split
    · rfl
    · simp [destroyCount, isDestroyCommand]

lemma destroyCount_probe_flatten (world : String → ChallengeWorld) (l : List String) :
    destroyCount ((l.map (fun c => (get_status_from_terraform_state (world c)).2)).flatten) = 0 := by
  induction l with
  | nil => rfl
  | cons c cs ih =>
    simp only [List.map_cons, List.flatten_cons, destroyCount_append, ih,
      destroyCount_probe, Nat.add_zero]

/-! ## Sample environments used by the witness theorems -/

/-- A dependency environment where no challenge is found in configuration. -/
def depEnvNone : DepEnv :=
  DepEnv.mk (fun _ => Except.ok false) (fun _ => Except.ok ChallengeStatus.unknown)
    (fun _ => Except.ok (false, []))

/-- A dependency environment where `chal-a` is configured, probes as
`deployed`, and exposes outputs, one of which is itself a `${...}` string. -/
def depEnvDeployed : DepEnv :=
  DepEnv.mk
    (fun n => if n = "chal-a" then Except.ok true else Except.ok false)
    (fun n => if n = "chal-a" then Except.ok ChallengeStatus.deployed
              else Except.ok ChallengeStatus.notDeployed)
    (fun n => if n = "chal-a" then
        Except.ok (true, [("flag", PyValue.str "${chal-b.flag}"), ("num", PyValue.int 7)])
      else Except.ok (false, []))

/-- A dependency environment where `chal-a` is configured but probes as
`not_deployed`. -/
def depEnvNotDeployed : DepEnv :=
  DepEnv.mk
    (fun n => if n = "chal-a" then Except.ok true else Except.ok false)
    (fun _ => Except.ok ChallengeStatus.notDeployed)
    (fun n => if n = "chal-a" then Except.ok (true, [("flag", PyValue.str "v")])
              else Except.ok (false, []))

/-- A dependency environment whose configuration lookup raises. -/
def depEnvRaising : DepEnv :=
  DepEnv.mk (fun _ => Except.error "boom") (fun _ => Except.ok ChallengeStatus.deployed)
    (fun _ => Except.ok (true, []))

/-- A resolution environment with a credential-shadowing process
environment: `AWS_ACCESS_KEY_ID` and `MY_TOKEN` are set. -/
def resolveEnvSample : ResolveEnv :=
  ResolveEnv.mk depEnvNone
    (fun n => if n = "AWS_ACCESS_KEY_ID" then some "env-shadow"
              else if n = "MY_TOKEN" then some "env-token" else none)

/-- A resolution environment whose dependency collaborators raise. -/
def resolveEnvRaising : ResolveEnv := ResolveEnv.mk depEnvRaising (fun _ => none)

/-- A provider CredentialSet holding an AWS access key id. -/
def credsSample : List (String × PyValue) := [("access_key_id", PyValue.str "AKIA123")]

/-! ## Claim theorems -/

/-- C4: for every declared variable value that is not a string, or is a
string that does not both start with `${` and end with `}`, resolution by
`Challenge._resolve_variable_value` returns the value unchanged, for any
CredentialSet. -/
theorem literal_values_pass_through (env : ResolveEnv)
    (provider_creds : List (String × PyValue)) :
    (∀ b, resolve_variable_value env (PyValue.bool b) provider_creds = PyValue.bool b)
  ∧ (∀ n, resolve_variable_value env (PyValue.int n) provider_creds = PyValue.int n)
  ∧ (∀ s, ¬ (pyStartsWith s "$\x7b" = true ∧ pyEndsWith s "\x7d" = true) →
      resolve_variable_value env (PyValue.str s) provider_creds = PyValue.str s) := by
  refine ⟨fun b => rfl, fun n => rfl, fun s h => ?_⟩
  simp only [resolve_variable_value]
  rw [if_neg h]

/-- Witness for C4 at concrete literal inputs. -/
theorem literal_values_pass_through_witness :
    (resolve_variable_value resolveEnvSample (PyValue.bool true) credsSample = PyValue.bool true)
  ∧ (resolve_variable_value resolveEnvSample (PyValue.int 8080) credsSample = PyValue.int 8080)
  ∧ (resolve_variable_value resolveEnvSample (PyValue.str "plain-text") credsSample
      = PyValue.str "plain-text") :=
  ⟨(literal_values_pass_through resolveEnvSample credsSample).1 true,
   (literal_values_pass_through resolveEnvSample credsSample).2.1 8080,
   (literal_values_pass_through resolveEnvSample credsSample).2.2 "plain-text" (by decide)⟩

/-- C3: for every bare reference `${TOKEN}` (TOKEN without a dot), the
credential tier (`var_mapping` then the provider CredentialSet) takes
precedence over any identically-named process environment variable; when it
yields nothing, a set non-empty environment variable is returned; otherwise
the original `${TOKEN}` string is returned unchanged. -/
theorem simple_reference_resolution (env : ResolveEnv) (t : String)
    (provider_creds : List (String × PyValue))
    (hnodot : strContainsDot t = false) :
    (∀ cred_key v, var_mapping.lookup t = some cred_key →
        provider_creds.lookup cred_key = some v →
        resolve_variable_value env (PyValue.str (wrapToken t)) provider_creds = v)
  ∧ (∀ r, creds_lookup t provider_creds = none → env.os_env t = some r → r ≠ "" →
        resolve_variable_value env (PyValue.str (wrapToken t)) provider_creds = PyValue.str r)
  ∧ (creds_lookup t provider_creds = none →
      (env.os_env t = none ∨ env.os_env t = some "") →
        resolve_variable_value env (PyValue.str (wrapToken t)) provider_creds
          = PyValue.str (wrapToken t)) := by
  have hmain : resolve_variable_value env (PyValue.str (wrapToken t)) provider_creds
      = (match creds_lookup t provider_creds with
         | some resolved => resolved
         | none =>
           match env.os_env t with
           | some r => if r ≠ "" then PyValue.str r else PyValue.str (wrapToken t)
           | none => PyValue.str (wrapToken t)) := by
    simp only [resolve_variable_value]
    rw [if_pos ⟨pyStartsWith_wrap t, pyEndsWith_wrap t⟩]
    simp only [pySliceInner_wrap, hnodot]
    simp
  refine ⟨fun cred_key v hmap hcred => ?_, fun r hcl hos hne => ?_, fun hcl hos => ?_⟩
  · rw [hmain]
    simp [creds_lookup, hmap, hcred]
  · rw [hmain]
    simp [hcl, hos, hne]
  · rw [hmain]
    rcases hos with hos | hos <;> simp [hcl, hos]

/-- Witness for C3: the credential tier wins over a set environment
variable of the same name; an unmapped token falls back to the environment;
an unresolvable token passes through unchanged. -/
theorem simple_reference_resolution_witness :
    (resolve_variable_value resolveEnvSample (PyValue.str (wrapToken "AWS_ACCESS_KEY_ID"))
        credsSample = PyValue.str "AKIA123")
  ∧ (resolve_variable_value resolveEnvSample (PyValue.str (wrapToken "MY_TOKEN"))
        credsSample = PyValue.str "env-token")
  ∧ (resolve_variable_value resolveEnvSample (PyValue.str (wrapToken "MISSING_TOKEN"))
        credsSample = PyValue.str (wrapToken "MISSING_TOKEN")) :=
  ⟨(simple_reference_resolution resolveEnvSample "AWS_ACCESS_KEY_ID" credsSample
      (by decide)).1 "access_key_id" (PyValue.str "AKIA123") (by decide) (by decide),
   (simple_reference_resolution resolveEnvSample "MY_TOKEN" credsSample
      (by decide)).2.1 "env-token" (by decide) (by decide) (by decide),
   (simple_reference_resolution resolveEnvSample "MISSING_TOKEN" credsSample
      (by decide)).2.2 (by decide) (Or.inl (by decide))⟩

/-- C1: for a cross-challenge reference token split by the first dot into a
challenge name and an output name, with the target challenge found in
configuration: a probed status other than `deployed`, a failed output
retrieval, or an absent output name each yield the rebuilt original
`${...}` token; a `deployed` status with a successful retrieval containing
the output yields `str(...)` of the output value with no further recursion
(the last conjunct returns `pyStr v` whatever the shape of `v`, including a
`${...}`-shaped string). -/
theorem cross_challenge_dependency_resolution (env : DepEnv) (dep cname oname : String)
    (hsplit : splitFirstDot dep = some (cname, oname))
    (hfound : env.config_exists cname = Except.ok true) :
    (∀ st, env.probed_status cname = Except.ok st → st ≠ ChallengeStatus.deployed →
        resolve_challenge_dependency env dep = wrapToken dep)
  ∧ (∀ outs, env.probed_status cname = Except.ok ChallengeStatus.deployed →
        env.get_outputs cname = Except.ok (false, outs) →
        resolve_challenge_dependency env dep = wrapToken dep)
  ∧ (∀ outs, env.probed_status cname = Except.ok ChallengeStatus.deployed →
        env.get_outputs cname = Except.ok (true, outs) → outs.lookup oname = none →
        resolve_challenge_dependency env dep = wrapToken dep)
  ∧ (∀ outs v, env.probed_status cname = Except.ok ChallengeStatus.deployed →
        env.get_outputs cname = Except.ok (true, outs) → outs.lookup oname = some v →
        resolve_challenge_dependency env dep = pyStr v) := by
  refine ⟨fun st hst hne => ?_, fun outs hst houts => ?_,
          fun outs hst houts hl => ?_, fun outs v hst houts hl => ?_⟩
  · simp [resolve_challenge_dependency, resolve_challenge_dependency_attempt,
      hsplit, hfound, hst, hne]
  · simp [resolve_challenge_dependency, resolve_challenge_dependency_attempt,
      hsplit, hfound, hst, houts]
  · simp [resolve_challenge_dependency, resolve_challenge_dependency_attempt,
      hsplit, hfound, hst, houts, hl]
  · simp [resolve_challenge_dependency, resolve_challenge_dependency_attempt,
      hsplit, hfound, hst, houts, hl]

/-- Witness for C1: a deployed dependency resolves to its declared output
verbatim, even when that output is itself a `${...}` string (no recursion);
a not-deployed dependency leaves the `${...}` token unresolved. -/
theorem cross_challenge_dependency_resolution_witness :
    (resolve_challenge_dependency depEnvDeployed "chal-a.flag" = "${chal-b.flag}")
  ∧ (resolve_challenge_dependency depEnvNotDeployed "chal-a.flag" = wrapToken "chal-a.flag") :=
  ⟨(cross_challenge_dependency_resolution depEnvDeployed "chal-a.flag" "chal-a" "flag"
      (by decide) rfl).2.2.2
      [("flag", PyValue.str "${chal-b.flag}"), ("num", PyValue.int 7)]
      (PyValue.str "${chal-b.flag}") rfl rfl (by decide),
   (cross_challenge_dependency_resolution depEnvNotDeployed "chal-a.flag" "chal-a" "flag"
      (by decide) rfl).1 ChallengeStatus.notDeployed rfl (by decide)⟩

/-- C9: variable resolution is total in the embedding, and the
`except Exception` handler of `Challenge._resolve_challenge_dependency`
turns any exception raised by its collaborators into the rebuilt original
`${...}` token, both at the dependency-resolution level and as seen through
`Challenge._resolve_variable_value`. -/
theorem resolution_exception_totality :
    (∀ env dep e, resolve_challenge_dependency_attempt env dep = Except.error e →
        resolve_challenge_dependency env dep = wrapToken dep)
  ∧ (∀ (env : ResolveEnv) (provider_creds : List (String × PyValue)) (t e : String),
        strContainsDot t = true →
        resolve_challenge_dependency_attempt env.dep t = Except.error e →
        resolve_variable_value env (PyValue.str (wrapToken t)) provider_creds
          = PyValue.str (wrapToken t)) := by
  constructor
  · intro env dep e h
    unfold resolve_challenge_dependency
    rw [h]
  · intro env provider_creds t e hdot herr
    simp only [resolve_variable_value]
    rw [if_pos ⟨pyStartsWith_wrap t, pyEndsWith_wrap t⟩]
    simp only [pySliceInner_wrap, hdot]
    simp [resolve_challenge_dependency, herr]

/-- Witness for C9 on an environment whose configuration lookup raises. -/
theorem resolution_exception_totality_witness :
    (resolve_challenge_dependency depEnvRaising "chal-a.flag" = wrapToken "chal-a.flag")
  ∧ (resolve_variable_value resolveEnvRaising (PyValue.str (wrapToken "chal-a.flag")) []
      = PyValue.str (wrapToken "chal-a.flag")) :=
  ⟨resolution_exception_totality.1 depEnvRaising "chal-a.flag" "boom" rfl,
   resolution_exception_totality.2 resolveEnvRaising [] "chal-a.flag" "boom"
     (by decide) rfl⟩

/-- C2: for a challenge with a directory path set: a missing `.terraform`
directory yields `not_deployed` with no subprocess invoked; otherwise
exactly one `terraform state list` call with a 30 second timeout is made,
and its outcome maps to `deployed` on non-empty stripped output, to
`not_deployed` on empty output with exit 0 or on a non-zero exit whose
stderr matches a known no-state phrasing, and to `unknown` on any other
non-zero exit, timeout, or missing binary; `deploying`, `destroying`, and
`failed` are never returned. -/
theorem state_prober_contract (w : ChallengeWorld) (hdir : w.dirSet = true) :
    (w.terraformDirExists = false →
        get_status_from_terraform_state w = (ChallengeStatus.notDeployed, []))
  ∧ (w.terraformDirExists = true →
        (get_status_from_terraform_state w).2 = [Effect.runCmd ["terraform", "state", "list"] 30]
      ∧ (∀ rc out err, w.stateListOutcome = RunOutcome.completed rc out err →
            ((rc = 0 → pyStrip out ≠ "" →
                (get_status_from_terraform_state w).1 = ChallengeStatus.deployed)
           ∧ (rc = 0 → pyStrip out = "" →
                (get_status_from_terraform_state w).1 = ChallengeStatus.notDeployed)
           ∧ (rc ≠ 0 →
                (pyIn "No state file was found" err = true ∨ pyIn "Failed to load state" err = true) →
                (get_status_from_terraform_state w).1 = ChallengeStatus.notDeployed)
           ∧ (rc ≠ 0 → pyIn "No state file was found" err = false →
                pyIn "Failed to load state" err = false →
                (get_status_from_terraform_state w).1 = ChallengeStatus.unknown)))
      ∧ (w.stateListOutcome = RunOutcome.timedOut →
            (get_status_from_terraform_state w).1 = ChallengeStatus.unknown)
      ∧ (w.stateListOutcome = RunOutcome.toolNotFound →
            (get_status_from_terraform_state w).1 = ChallengeStatus.unknown)
      ∧ (∀ m, w.stateListOutcome = RunOutcome.raised m →
            (get_status_from_terraform_state w).1 = ChallengeStatus.unknown))
  ∧ ((get_status_from_terraform_state w).1 ≠ ChallengeStatus.deploying
    ∧ (get_status_from_terraform_state w).1 ≠ ChallengeStatus.destroying
    ∧ (get_status_from_terraform_state w).1 ≠ ChallengeStatus.failed) := by
  refine ⟨fun hne => ?_, fun hex => ⟨?_, fun rc out err hc => ⟨?_, ?_, ?_, ?_⟩, ?_, ?_, ?_⟩, ?_⟩
  · simp [get_status_from_terraform_state, hdir, hne]
  · simp [get_status_from_terraform_state, hdir, hex]
  · intro hrc hout
    simp [get_status_from_terraform_state, hdir, hex, hc, interpretStateList, hrc, hout]
  · intro hrc hout
    simp [get_status_from_terraform_state, hdir, hex, hc, interpretStateList, hrc, hout]
  · intro hrc hmatch
    simp [get_status_from_terraform_state, hdir, hex, hc, interpretStateList, hrc, hmatch]
  · intro hrc hm1 hm2
    simp [get_status_from_terraform_state, hdir, hex, hc, interpretStateList, hrc, hm1, hm2]
  · intro ht
    simp [get_status_from_terraform_state, hdir, hex, ht, interpretStateList]
  · intro ht
    simp [get_status_from_terraform_state, hdir, hex, ht, interpretStateList]
  · intro m ht
    simp [get_status_from_terraform_state, hdir, hex, ht, interpretStateList]
  · rcases probe_status_cases w with h | h | h <;> simp [h]

/-- Witness for C2: a missing `.terraform` directory probes `not_deployed`
without a subprocess; with the directory present, a successful exit with a
listed resource probes `deployed` and the trace is one 30 second
state-list call. -/
theorem state_prober_contract_witness :
    (get_status_from_terraform_state
        (ChallengeWorld.mk true false (RunOutcome.completed 0 "" "") false true true true true)
      = (ChallengeStatus.notDeployed, []))
  ∧ ((get_status_from_terraform_state
        (ChallengeWorld.mk true true (RunOutcome.completed 0 "aws_instance.vm" "") false true true true true)).2
      = [Effect.runCmd ["terraform", "state", "list"] 30])
  ∧ ((get_status_from_terraform_state
        (ChallengeWorld.mk true true (RunOutcome.completed 0 "aws_instance.vm" "") false true true true true)).1
      = ChallengeStatus.deployed)
  ∧ ((get_status_from_terraform_state
        (ChallengeWorld.mk true true RunOutcome.timedOut false true true true true)).1
      = ChallengeStatus.unknown) :=
  ⟨(state_prober_contract
      (ChallengeWorld.mk true false (RunOutcome.completed 0 "" "") false true true true true)
      rfl).1 rfl,
   ((state_prober_contract
      (ChallengeWorld.mk true true (RunOutcome.completed 0 "aws_instance.vm" "") false true true true true)
      rfl).2.1 rfl).1,
   ((((state_prober_contract
      (ChallengeWorld.mk true true (RunOutcome.completed 0 "aws_instance.vm" "") false true true true true)
      rfl).2.1 rfl).2.1 0 "aws_instance.vm" "" rfl).1 rfl (by decide)),
   (((state_prober_contract
      (ChallengeWorld.mk true true RunOutcome.timedOut false true true true true)
      rfl).2.1 rfl).2.2.1 rfl)⟩

/-- C10: with no working-directory path computed (`full_directory_path` is
`None`), the state prober returns `unknown` with no on-disk check or
subprocess invocation. -/
theorem state_prober_unset_directory (w : ChallengeWorld) (h : w.dirSet = false) :
    get_status_from_terraform_state w = (ChallengeStatus.unknown, []) := by
  simp [get_status_from_terraform_state, h]

/-- Witness for C10 at a concrete world with the directory path unset. -/
theorem state_prober_unset_directory_witness :
    get_status_from_terraform_state
        (ChallengeWorld.mk false false (RunOutcome.completed 0 "aws_instance.vm" "") true true true true true)
      = (ChallengeStatus.unknown, []) :=
  state_prober_unset_directory
    (ChallengeWorld.mk false false (RunOutcome.completed 0 "aws_instance.vm" "") true true true true true) rfl

/-- A world whose challenge has no `.terraform` directory (probes
`not_deployed`). -/
def worldNotDeployed : ChallengeWorld :=
  ChallengeWorld.mk true false (RunOutcome.completed 0 "" "") false true true true true

/-- A world whose challenge has state resources listed (probes
`deployed`). -/
def worldDeployed : ChallengeWorld :=
  ChallengeWorld.mk true true (RunOutcome.completed 0 "aws_instance.vm" "") true true true true true

/-- A manager environment with one configured, not-deployed challenge. -/
def mgrEnvNotDeployed : MgrEnv :=
  MgrEnv.mk ["chal-a"] (fun _ => true) (fun _ => worldNotDeployed) "yes"

/-- A manager environment with two deployed challenges and a declined
confirmation response. -/
def mgrEnvDeclined : MgrEnv :=
  MgrEnv.mk ["chal-a", "chal-b"] (fun _ => true) (fun _ => worldDeployed) "no"

/-- C5: destroying a challenge whose probed status is `not_deployed`
returns success and invokes zero destroy subprocesses: the operation
short-circuits before `TerraformManager.destroy`. -/
theorem destroy_not_deployed_noop (env : MgrEnv) (name : String) (auto_approve : Bool)
    (hfound : env.config_exists name = true)
    (hstatus : (get_status_from_terraform_state (env.world name)).1 = ChallengeStatus.notDeployed) :
    (destroy_challenge env name auto_approve).1 = true
  ∧ destroyCount (destroy_challenge env name auto_approve).2 = 0 := by
  have h : destroy_challenge env name auto_approve
      = (true, (get_status_from_terraform_state (env.world name)).2) := by
    simp [destroy_challenge, hfound, hstatus]
  rw [h]
  exact ⟨rfl, destroyCount_probe (env.world name)⟩

/-- Witness for C5 on a configured challenge probing `not_deployed`. -/
theorem destroy_not_deployed_noop_witness :
    (destroy_challenge mgrEnvNotDeployed "chal-a" false).1 = true
  ∧ destroyCount (destroy_challenge mgrEnvNotDeployed "chal-a" false).2 = 0 :=
  destroy_not_deployed_noop mgrEnvNotDeployed "chal-a" false rfl (by decide)

/-- C6: every subprocess invocation issued by `TerraformManager.apply` and
`TerraformManager.destroy` is configured with a 2400 second timeout when
the challenge name is `challenge-04-aws-only` and 1200 seconds for every
other name. -/
theorem long_operation_timeouts :
    (∀ w name auto_approve var_file cmd t,
        Effect.runCmd cmd t ∈ (terraform_apply w name auto_approve var_file).2 →
        (name = "challenge-04-aws-only" → t = 2400)
      ∧ (name ≠ "challenge-04-aws-only" → t = 1200))
  ∧ (∀ w name auto_approve var_file cmd t,
        Effect.runCmd cmd t ∈ (terraform_destroy w name auto_approve var_file).2 →
        (name = "challenge-04-aws-only" → t = 2400)
      ∧ (name ≠ "challenge-04-aws-only" → t = 1200)) := by
  constructor
  · intro w name a v cmd t h
    by_cases hd : w.dirSet = false
    · simp [terraform_apply, hd] at h
    · simp only [terraform_apply, if_neg hd, List.mem_append] at h
      rcases h with h | h
      · split at h <;> simp at h
      · simp only [List.mem_singleton, Effect.runCmd.injEq] at h
        rcases h with ⟨-, ht⟩
        constructor
        · intro hn
          rw [if_pos hn] at ht
          exact ht
        · intro hn
          rw [if_neg hn] at ht
          exact ht
  · intro w name a v cmd t h
    by_cases hd : w.dirSet = false
    · simp [terraform_destroy, hd] at h
    · simp only [terraform_destroy, if_neg hd, List.mem_singleton, Effect.runCmd.injEq] at h
      rcases h with ⟨-, ht⟩
      constructor
      · intro hn
        rw [if_pos hn] at ht
        exact ht
      · intro hn
        rw [if_neg hn] at ht
        exact ht

/-- Witness for C6: the heavyweight name gets 2400 seconds on apply and an
ordinary name gets 1200 seconds on destroy, at concrete invocations. -/
theorem long_operation_timeouts_witness :
    ((("challenge-04-aws-only" : String) = "challenge-04-aws-only" → (2400 : Nat) = 2400)
      ∧ (("challenge-04-aws-only" : String) ≠ "challenge-04-aws-only" → (2400 : Nat) = 1200))
  ∧ ((("chal-web" : String) = "challenge-04-aws-only" → (1200 : Nat) = 2400)
      ∧ (("chal-web" : String) ≠ "challenge-04-aws-only" → (1200 : Nat) = 1200)) :=
  ⟨long_operation_timeouts.1 worldDeployed "challenge-04-aws-only" true true
      ["terraform", "apply", "-auto-approve", "-var-file", "terraform.tfvars"] 2400 (by decide),
   long_operation_timeouts.2 worldDeployed "chal-web" true true
      ["terraform", "destroy", "-auto-approve", "-var-file", "terraform.tfvars"] 1200 (by decide)⟩

/-- C7: `destroy-all` without auto-approve, with at least one deployed
challenge and a confirmation response that does not lower-case to `yes`,
returns failure and invokes zero destroy subprocesses. -/
theorem destroy_all_declined (env : MgrEnv)
    (hdep : deployed_challenges env ≠ [])
    (hresp : pyLower env.response ≠ "yes") :
    (destroy_all_challenges env false).1 = false
  ∧ destroyCount (destroy_all_challenges env false).2 = 0 := by
  have h : destroy_all_challenges env false
      = (false,
         (env.challenges.map (fun c => (get_status_from_terraform_state (env.world c)).2)).flatten) := by
    simp [destroy_all_challenges, hdep, hresp]
  rw [h]
  exact ⟨rfl, destroyCount_probe_flatten env.world env.challenges⟩

/-- Witness for C7 with two deployed challenges and the response `no`. -/
theorem destroy_all_declined_witness :
    (destroy_all_challenges mgrEnvDeclined false).1 = false
  ∧ destroyCount (destroy_all_challenges mgrEnvDeclined false).2 = 0 :=
  destroy_all_declined mgrEnvDeclined (by decide) (by decide)

/-- C8: `TerraformManager.destroy` never writes a file into the working
directory (no variables-file regeneration), while apply and plan with the
variables-file option regenerate `terraform.tfvars` (one write, placed
before the subprocess invocation in the trace) and write no other file. -/
theorem destroy_preserves_variables_file :
    (∀ w name auto_approve var_file f,
        Effect.writeFile f ∉ (terraform_destroy w name auto_approve var_file).2)
  ∧ (∀ w name auto_approve, w.dirSet = true → w.createVarsOk = true →
      ∃ cmd t, (terraform_apply w name auto_approve true).2
        = [Effect.writeFile "terraform.tfvars", Effect.runCmd cmd t])
  ∧ (∀ w, w.dirSet = true → w.createVarsOk = true →
      ∃ cmd t, (terraform_plan w true).2
        = [Effect.writeFile "terraform.tfvars", Effect.runCmd cmd t])
  ∧ (∀ w name auto_approve var_file f,
        Effect.writeFile f ∈ (terraform_apply w name auto_approve var_file).2 →
        f = "terraform.tfvars")
  ∧ (∀ w var_file f,
        Effect.writeFile f ∈ (terraform_plan w var_file).2 → f = "terraform.tfvars") := by
  refine ⟨?_, ?_, ?_, ?_, ?_⟩
  · intro w name a v f h
    by_cases hd : w.dirSet = false
    · simp [terraform_destroy, hd] at h
    · simp [terraform_destroy, hd] at h
  · intro w name a h1 h2
    refine ⟨["terraform", "apply"] ++ (if a = true then ["-auto-approve"] else [])
        ++ ["-var-file", "terraform.tfvars"],
      if name = "challenge-04-aws-only" then 2400 else 1200, ?_⟩
    simp [terraform_apply, h1, h2]
  · intro w h1 h2
    refine ⟨["terraform", "plan"] ++ ["-var-file", "terraform.tfvars"], 600, ?_⟩
    simp [terraform_plan, h1, h2]
  · intro w name a v f h
    by_cases hd : w.dirSet = false
    · simp [terraform_apply, hd] at h
    · simp only [terraform_apply, if_neg hd, List.mem_append] at h
      rcases h with h | h
      · split at h
        · simp only [List.mem_singleton, Effect.writeFile.injEq] at h
          exact h
        · simp at h
      · simp at h
  · intro w v f h
    by_cases hd : w.dirSet = false
    · simp [terraform_plan, hd] at h
    · simp only [terraform_plan, if_neg hd, List.mem_append] at h
      rcases h with h | h
      · split at h
        · simp only [List.mem_singleton, Effect.writeFile.injEq] at h
          exact h
        · simp at h
      · simp at h

/-- Witness for C8 at a concrete world: destroy's trace holds no write,
apply's and plan's traces are one `terraform.tfvars` write followed by the
subprocess call, and an actual write in apply's trace names
`terraform.tfvars`. -/
theorem destroy_preserves_variables_file_witness :
    (Effect.writeFile "terraform.tfvars" ∉ (terraform_destroy worldDeployed "chal-a" true true).2)
  ∧ (∃ cmd t, (terraform_apply worldDeployed "chal-a" true true).2
      = [Effect.writeFile "terraform.tfvars", Effect.runCmd cmd t])
  ∧ (∃ cmd t, (terraform_plan worldDeployed true).2
      = [Effect.writeFile "terraform.tfvars", Effect.runCmd cmd t])
  ∧ ("terraform.tfvars" : String) = "terraform.tfvars" :=
  ⟨destroy_preserves_variables_file.1 worldDeployed "chal-a" true true "terraform.tfvars",
   destroy_preserves_variables_file.2.1 worldDeployed "chal-a" true rfl rfl,
   destroy_preserves_variables_file.2.2.1 worldDeployed rfl rfl,
   destroy_preserves_variables_file.2.2.2.1 worldDeployed "chal-a" true true "terraform.tfvars"
     (by decide)⟩

end HTC
